/-
  Verification of the do-it-with-ease task-management and Pomodoro-timer client.

  The development shallowly embeds the Pomodoro session engine (the zustand
  pomodoro store, in both of its versions found in the repository), the task
  store filtering logic, and the TimerPage event handlers, and proves the
  testable properties stated in the design document about them.

  Conventions: JavaScript Date values are modelled as natural numbers
  (milliseconds since the epoch, passed in explicitly as a `now` argument),
  string ids stay strings, and remote (Supabase) calls are modelled by
  passing their result in as an `Except` argument, together with an explicit
  record of which remote requests were issued.
-/
import Mathlib

namespace DoItWithEase

/-- Priority enum of a task: high, medium or low. -/
inductive Priority where
  | high
  | medium
  | low
deriving DecidableEq

/-- Session type enum of a Pomodoro session. -/
inductive SessionType where
  | work
  | short_break
  | long_break
deriving DecidableEq

/-- Task entity, as used throughout the stores and hooks: id, owner,
title, optional description, priority, tag names, optional due date,
estimated and completed Pomodoro counts, completion flag and timestamps. -/
structure Task where
  id : String
  userId : String
  title : String
  description : Option String
  priority : Priority
  tags : List String
  dueDate : Option Nat
  estimatedPomodoros : Nat
  completedPomodoros : Nat
  isCompleted : Bool
  createdAt : Nat
  updatedAt : Nat
deriving DecidableEq

/-- PomodoroSession entity as created by the pomodoro store: id, owner,
bound task, duration in seconds, type, start time, optional completion
time and completion flag. -/
structure PomodoroSession where
  id : String
  userId : String
  taskId : String
  duration : Nat
  sessionType : SessionType
  startedAt : Nat
  completedAt : Option Nat
  isCompleted : Bool
deriving DecidableEq

/-- Concrete task taken from the demo data seeded into the tasks store. -/
def sampleTask : Task :=
  { id := "1"
    userId := "1"
    title := "Complete project documentation"
    description := some ("Write comprehensive documentation for the new feature")
    priority := Priority.high
    tags := ["work", "documentation"]
    dueDate := none
    estimatedPomodoros := 4
    completedPomodoros := 2
    isCompleted := false
    createdAt := 0
    updatedAt := 0 }

/-- Status filter value of the task list: completed or pending. -/
inductive StatusFilter where
  | completed
  | pending
deriving DecidableEq

/-- Task filters record: optional priority, optional completion status,
optional tag list and optional free-text search, each absent by default
(mirroring an empty JavaScript filters object). -/
structure TaskFilters where
  priority : Option Priority := none
  status : Option StatusFilter := none
  tags : Option (List String) := none
  search : Option String := none
deriving DecidableEq

/-- JavaScript `hay.includes(needle)` on strings: needle occurs as a
contiguous substring of hay. -/
def jsIncludes (hay needle : String) : Bool :=
  decide (needle.toList <:+: hay.toList)

/-- JavaScript `toLowerCase()`, modelled as lowercasing every character
of the string. -/
def jsToLower (s : String) : String :=
  ⟨s.data.map Char.toLower⟩

/-- Free-text search test shared by the task filters: the lowercased
query occurs in the lowercased title, or the task has a description and
the query occurs in its lowercased form (a missing description never
matches, mirroring the optional chaining in the source). -/
def matchesSearch (q : String) (t : Task) : Bool :=
  jsIncludes (jsToLower t.title) (jsToLower q) ||
    (match t.description with
     | some d => jsIncludes (jsToLower d) (jsToLower q)
     | none => false)

/-- Tag filter test shared by the task filters: the task carries at
least one of the requested tag names. -/
def matchesTags (tags : List String) (t : Task) : Bool :=
  tags.any fun tag => t.tags.contains tag

/-- Filtering statement `if (filters.priority) filtered = filtered.filter(...)`
of the tasks store: keeps tasks of the requested priority, skipped when
no priority is requested. -/
def priorityStage (o : Option Priority) (l : List Task) : List Task :=
  match o with
  | some p => l.filter fun t => t.priority == p
  | none => l

/-- Filtering statement `if (filters.tags && filters.tags.length > 0) ...`:
keeps tasks having at least one requested tag, skipped when the tag
list is absent or empty. -/
def tagsStage (o : Option (List String)) (l : List Task) : List Task :=
  match o with
  | some tags => if 0 < tags.length then l.filter (matchesTags tags) else l
  | none => l

/-- Filtering statement `if (filters.status) ...`: keeps completed or
pending tasks according to the requested status, skipped when absent. -/
def statusStage (o : Option StatusFilter) (l : List Task) : List Task :=
  match o with
  | some st =>
    l.filter fun t =>
      match st with
      | StatusFilter.completed => t.isCompleted
      | StatusFilter.pending => !t.isCompleted
  | none => l

/-- Filtering statement `if (filters.search) ...`: keeps tasks matching
the lowercased free-text search, skipped when the search is absent or
the empty string (falsy in JavaScript). -/
def searchStage (o : Option String) (l : List Task) : List Task :=
  match o with
  | some q => if q ≠ "" then l.filter (matchesSearch q) else l
  | none => l

namespace TasksStore

/-- Partial task update (the `Partial<Task>` argument of updateTask):
every field optional, absent fields left untouched. -/
structure TaskUpdates where
  title : Option String := none
  description : Option (Option String) := none
  priority : Option Priority := none
  tags : Option (List String) := none
  dueDate : Option (Option Nat) := none
  estimatedPomodoros : Option Nat := none
  completedPomodoros : Option Nat := none
  isCompleted : Option Bool := none
deriving DecidableEq

/-- Spread semantics of `{ ...task, ...updates, updatedAt: new Date() }`:
supplied fields overwrite, omitted fields survive, updatedAt is stamped. -/
def applyUpdates (u : TaskUpdates) (now : Nat) (t : Task) : Task :=
  { t with
    title := u.title.getD t.title
    description := u.description.getD t.description
    priority := u.priority.getD t.priority
    tags := u.tags.getD t.tags
    dueDate := u.dueDate.getD t.dueDate
    estimatedPomodoros := u.estimatedPomodoros.getD t.estimatedPomodoros
    completedPomodoros := u.completedPomodoros.getD t.completedPomodoros
    isCompleted := u.isCompleted.getD t.isCompleted
    updatedAt := now }

/-- updateTask of the tasks store: maps over the list, merging the
updates into every task whose id matches. -/
def updateTask (id : String) (u : TaskUpdates) (now : Nat) (tasks : List Task) : List Task :=
  tasks.map fun t => if t.id = id then applyUpdates u now t else t

/-- applyFilters of the tasks store: successively filters by priority,
tag intersection, completion status and free-text search, in that
order, each statement skipped when its filter is absent or falsy. -/
def applyFilters (filters : TaskFilters) (tasks : List Task) : List Task :=
  searchStage filters.search
    (statusStage filters.status
      (tagsStage filters.tags
        (priorityStage filters.priority tasks)))

end TasksStore

namespace UseTasks

/-- Client-side filtering of the useTasks hook (applied after the
server-side priority and status query): the free-text search statement
first, then the tag statement, textually identical to the two
corresponding statements of the tasks store applyFilters. -/
def clientFilters (filters : TaskFilters) (tasks : List Task) : List Task :=
  tagsStage filters.tags (searchStage filters.search tasks)

end UseTasks

/-- Characteristic predicate of the free-text search as the design
document states it: with no search (or the empty search, which matches
everything) every task is kept; otherwise the case-insensitive
substring match over title and description decides. -/
def searchPred : Option String → Task → Bool
  | none, _ => true
  | some q, t => matchesSearch q t

/-- Characteristic predicate of the tag filter as the design document
states it: when tags are requested (a non-empty list), the task must
carry at least one of them; otherwise every task is kept. -/
def tagsPred : Option (List String) → Task → Bool
  | none, _ => true
  | some tags, t => tags.isEmpty || matchesTags tags t

/-- Characteristic predicate of the priority filter. -/
def priorityPred : Option Priority → Task → Bool
  | none, _ => true
  | some p, t => t.priority == p

/-- Characteristic predicate of the completion-status filter. -/
def statusPred : Option StatusFilter → Task → Bool
  | none, _ => true
  | some StatusFilter.completed, t => t.isCompleted
  | some StatusFilter.pending, t => !t.isCompleted

namespace Store

/-- Engine runtime state of the pomodoro store (the current store version,
the one with `setDurations`): current session, running and paused flags,
remaining seconds, bound task, and the configured work and break
durations in seconds. -/
structure PomodoroState where
  currentSession : Option PomodoroSession
  isRunning : Bool
  isPaused : Bool
  timeRemaining : Nat
  selectedTask : Option Task
  workDuration : Nat
  breakDuration : Nat
deriving DecidableEq

/-- Initial store state: no session, not running, 25 minutes of work and
5 minutes of break configured, 25 minutes remaining. -/
def initialState : PomodoroState :=
  { currentSession := none
    isRunning := false
    isPaused := false
    timeRemaining := 25 * 60
    selectedTask := none
    workDuration := 25 * 60
    breakDuration := 5 * 60 }

/-- startSession: creates a local session record bound to the task, with
duration equal to the configured work duration, and transitions to
Running with `timeRemaining = workDuration`. -/
def startSession (now : Nat) (task : Task) (s : PomodoroState) : PomodoroState :=
  let session : PomodoroSession :=
    { id := toString now
      userId := task.userId
      taskId := task.id
      duration := s.workDuration
      sessionType := SessionType.work
      startedAt := now
      completedAt := none
      isCompleted := false }
  { s with
    currentSession := some session
    selectedTask := some task
    isRunning := true
    isPaused := false
    timeRemaining := s.workDuration }

/-- pauseSession: clears the running flag and sets the paused flag,
unconditionally. No remote call is issued. -/
def pauseSession (s : PomodoroState) : PomodoroState :=
  { s with isRunning := false, isPaused := true }

/-- resumeSession: sets the running flag and clears the paused flag,
unconditionally. No remote call is issued. -/
def resumeSession (s : PomodoroState) : PomodoroState :=
  { s with isRunning := true, isPaused := false }

/-- completeSession of the current store version: when both a current
session and a selected task are present, returns to the idle baseline
(no session, no selected task, flags cleared, `timeRemaining` back to
the configured work duration); otherwise does nothing. -/
def completeSession (s : PomodoroState) : PomodoroState :=
  match s.currentSession, s.selectedTask with
  | some _, some _ =>
    { s with
      currentSession := none
      selectedTask := none
      isRunning := false
      isPaused := false
      timeRemaining := s.workDuration }
  | _, _ => s

/-- resetSession: unconditionally returns to the idle baseline. -/
def resetSession (s : PomodoroState) : PomodoroState :=
  { s with
    currentSession := none
    selectedTask := none
    isRunning := false
    isPaused := false
    timeRemaining := s.workDuration }

/-- tick: while running with positive remaining time, decrements
`timeRemaining` by one; while running with zero remaining time, invokes
`completeSession`; otherwise does nothing. -/
def tick (s : PomodoroState) : PomodoroState :=
  if s.isRunning = true ∧ 0 < s.timeRemaining then
    { s with timeRemaining := s.timeRemaining - 1 }
  else if s.isRunning = true ∧ s.timeRemaining = 0 then
    completeSession s
  else s

/-- setDurations: stores the new minute values converted to seconds and,
unconditionally, also sets `timeRemaining` to the new work duration. -/
def setDurations (workDuration breakDuration : Nat) (s : PomodoroState) : PomodoroState :=
  { s with
    workDuration := workDuration * 60
    breakDuration := breakDuration * 60
    timeRemaining := workDuration * 60 }

/-- Iterated tick events: `ticks n s` is the state after n one-second
tick events delivered to state s. -/
def ticks (n : Nat) (s : PomodoroState) : PomodoroState :=
  tick^[n] s

/-- Public operations of the pomodoro store, as an event alphabet. -/
inductive Op where
  | start (now : Nat) (task : Task)
  | pause
  | resume
  | complete
  | reset
  | tick
  | config (workDuration breakDuration : Nat)

/-- Interpretation of one public operation on the store state
(`config` is the setDurations operation). -/
def applyOp : Op → PomodoroState → PomodoroState
  | Op.start now task, s => startSession now task s
  | Op.pause, s => pauseSession s
  | Op.resume, s => resumeSession s
  | Op.complete, s => completeSession s
  | Op.reset, s => resetSession s
  | Op.tick, s => tick s
  | Op.config w b, s => setDurations w b s

/-- Runs a sequence of public operations from a state. -/
def runOps (ops : List Op) (s : PomodoroState) : PomodoroState :=
  ops.foldl (fun s op => applyOp op s) s

/-- Engine state invariant stated by the design document: running
implies a session is present; paused implies a session is present and
not running; no session implies the countdown sits at the configured
work duration. -/
def Inv (s : PomodoroState) : Prop :=
  (s.isRunning = true → s.currentSession.isSome = true) ∧
  (s.isPaused = true → s.currentSession.isSome = true ∧ s.isRunning = false) ∧
  (s.currentSession = none → s.timeRemaining = s.workDuration)

instance (s : PomodoroState) : Decidable (Inv s) := by
  unfold Inv
  infer_instance

/-- States reachable from the initial store state under the UI
discipline of the TimerPage: pause is only delivered while running and
resume only while paused (the page renders a single play or pause
button inside the active-session branch); all other operations are
unrestricted. -/
inductive GReach : PomodoroState → Prop where
  | init : GReach initialState
  | startStep (now : Nat) (task : Task) {s : PomodoroState} :
      GReach s → GReach (startSession now task s)
  | pauseStep {s : PomodoroState} :
      GReach s → s.isRunning = true → GReach (pauseSession s)
  | resumeStep {s : PomodoroState} :
      GReach s → s.isPaused = true → GReach (resumeSession s)
  | completeStep {s : PomodoroState} : GReach s → GReach (completeSession s)
  | resetStep {s : PomodoroState} : GReach s → GReach (resetSession s)
  | tickStep {s : PomodoroState} : GReach s → GReach (tick s)
  | configStep (w b : Nat) {s : PomodoroState} :
      GReach s → GReach (setDurations w b s)

/-- A tick delivered while running with positive remaining time only
decrements the countdown. -/
theorem tick_of_running_pos {s : PomodoroState} (h1 : s.isRunning = true)
    (h2 : 0 < s.timeRemaining) :
    tick s = { s with timeRemaining := s.timeRemaining - 1 } := by
  unfold tick
  rw [if_pos ⟨h1, h2⟩]

/-- A tick delivered while running with exhausted countdown performs
the automatic completion. -/
theorem tick_of_running_zero {s : PomodoroState} (h1 : s.isRunning = true)
    (h2 : s.timeRemaining = 0) :
    tick s = completeSession s := by
  unfold tick
  rw [if_neg fun hc => by omega, if_pos ⟨h1, h2⟩]

/-- A tick delivered while not running changes nothing. -/
theorem tick_of_not_running {s : PomodoroState} (h : s.isRunning = false) :
    tick s = s := by
  unfold tick
  rw [if_neg fun hc => by simp [h] at hc, if_neg fun hc => by simp [h] at hc]

/-- Iterated ticks while not running change nothing. -/
theorem ticks_of_not_running (m : Nat) {s : PomodoroState} (h : s.isRunning = false) :
    ticks m s = s := by
  induction m with
  | zero => rfl
  | succ n ih =>
    unfold ticks
    rw [Function.iterate_succ_apply, tick_of_not_running h]
    exact ih

/-- While running, k ticks with k at most the remaining time only run
the countdown down by k, touching no other field. -/
theorem ticks_run_down (k : Nat) {s : PomodoroState} (h1 : s.isRunning = true)
    (h2 : k ≤ s.timeRemaining) :
    ticks k s = { s with timeRemaining := s.timeRemaining - k } := by
  induction k generalizing s with
  | zero =>
    simp only [ticks, Function.iterate_zero, id_eq, Nat.sub_zero]
  | succ n ih =>
    have hpos : 0 < s.timeRemaining := by omega
    unfold ticks
    rw [Function.iterate_succ_apply, tick_of_running_pos h1 hpos]
    have := ih (s := { s with timeRemaining := s.timeRemaining - 1 }) h1 (by simp; omega)
    unfold ticks at this
    rw [this]
    simp [Nat.sub_sub]
    omega

end Store

namespace StoreV1

/-- Engine runtime state of the first pomodoro store version found in
the repository: same fields as the current one, plus the list of
completed sessions it accumulates, and combined here with the tasks
store state that its completeSession mutates through updateTask. -/
structure AppState where
  currentSession : Option PomodoroSession
  isRunning : Bool
  isPaused : Bool
  timeRemaining : Nat
  selectedTask : Option Task
  sessions : List PomodoroSession
  workDuration : Nat
  breakDuration : Nat
  tasks : List Task
deriving DecidableEq

/-- startSession of the first store version: identical to the current
one except that the session owner is the mock user id. The tasks store
is untouched. -/
def startSession (now : Nat) (task : Task) (s : AppState) : AppState :=
  let session : PomodoroSession :=
    { id := toString now
      userId := "1"
      taskId := task.id
      duration := s.workDuration
      sessionType := SessionType.work
      startedAt := now
      completedAt := none
      isCompleted := false }
  { s with
    currentSession := some session
    selectedTask := some task
    isRunning := true
    isPaused := false
    timeRemaining := s.workDuration }

/-- completeSession of the first store version: when a current session
and a selected task are present, stamps the session completed, appends
it to the session list, increments the selected task
completedPomodoros through the tasks store updateTask, and returns the
engine to the idle baseline; otherwise does nothing. -/
def completeSession (now : Nat) (s : AppState) : AppState :=
  match s.currentSession, s.selectedTask with
  | some cur, some sel =>
    let completedSession : PomodoroSession :=
      { cur with completedAt := some now, isCompleted := true }
    let tasks :=
      TasksStore.updateTask sel.id
        { completedPomodoros := some (sel.completedPomodoros + 1) } now s.tasks
    { s with
      sessions := s.sessions ++ [completedSession]
      currentSession := none
      selectedTask := none
      isRunning := false
      isPaused := false
      timeRemaining := s.workDuration
      tasks := tasks }
  | _, _ => s

/-- resetSession of the first store version: returns the engine to the
idle baseline; the session list and the tasks store are untouched. -/
def resetSession (s : AppState) : AppState :=
  { s with
    currentSession := none
    selectedTask := none
    isRunning := false
    isPaused := false
    timeRemaining := s.workDuration }

end StoreV1

namespace TimerPage

/-- Status of a session record on the remote store. -/
inductive SessionStatus where
  | running
  | completed
  | cancelled
deriving DecidableEq

/-- Remote session records, as an association list from session id to
status. -/
abbrev RemoteSessions := List (String × SessionStatus)

/-- Sets the status of the remote session with the given id. -/
def markSession (id : String) (status : SessionStatus) (remote : RemoteSessions) : RemoteSessions :=
  remote.map fun p => if p.1 = id then (p.1, status) else p

/-- State visible to the TimerPage handlers: the pomodoro store, the
page-local remote session id, the remote session records, the task
list delivered by useTasks, and the page-local selected task id. -/
structure PageState where
  store : Store.PomodoroState
  currentSessionId : Option String
  remote : RemoteSessions
  tasks : List Task
  selectedTaskId : String
deriving DecidableEq

/-- Outcome of a handleStart invocation, as observable by the caller:
a silent early return (the guard path raises nothing and shows no
toast), a started session, or a destructive error toast carrying the
message of the failed remote create. -/
inductive StartOutcome where
  | silentIgnore
  | started (sessionId : String)
  | createFailed (message : String)
deriving DecidableEq

/-- Whether a handleStart outcome surfaces an error to the user. -/
def StartOutcome.surfacesError : StartOutcome → Bool
  | StartOutcome.createFailed _ => true
  | _ => false

/-- handleStart of the TimerPage: looks the selected task id up in the
task list and returns silently when it is absent or is the placeholder
id; otherwise issues the remote session create (its result is passed
in), and on success records the new remote session, stores its id and
starts the local session, while on failure it only shows an error
toast. The returned flag records whether the remote create call was
issued. -/
def handleStart (createResult : Except String String) (now : Nat)
    (p : PageState) : PageState × Bool × StartOutcome :=
  match p.tasks.find? fun t => t.id = p.selectedTaskId with
  | none => (p, false, StartOutcome.silentIgnore)
  | some task =>
    if p.selectedTaskId = "no-tasks" then
      (p, false, StartOutcome.silentIgnore)
    else
      match createResult with
      | Except.ok sessionId =>
        ({ p with
            store := Store.startSession now task p.store
            currentSessionId := some sessionId
            remote := p.remote ++ [(sessionId, SessionStatus.running)] },
          true, StartOutcome.started sessionId)
      | Except.error msg => (p, true, StartOutcome.createFailed msg)

/-- handleComplete of the TimerPage: when a remote session id is held,
issues the remote completion update (its result is passed in); whether
it succeeds or fails, the local completeSession then runs and the page
session id is cleared. The returned option carries the error message
surfaced on remote failure. -/
def handleComplete (finalizeResult : Except String Unit)
    (p : PageState) : PageState × Option String :=
  match p.currentSessionId with
  | some id =>
    match finalizeResult with
    | Except.ok _ =>
      ({ p with
          store := Store.completeSession p.store
          currentSessionId := none
          remote := markSession id SessionStatus.completed p.remote }, none)
    | Except.error e =>
      ({ p with
          store := Store.completeSession p.store
          currentSessionId := none }, some e)
  | none =>
    ({ p with store := Store.completeSession p.store, currentSessionId := none }, none)

/-- handleReset of the TimerPage: when a remote session id is held,
issues the remote cancellation update (its result is passed in, and a
failure is only logged); whether it succeeds or fails, the local
resetSession then runs and the page session id is cleared. -/
def handleReset (finalizeResult : Except String Unit)
    (p : PageState) : PageState :=
  match p.currentSessionId with
  | some id =>
    match finalizeResult with
    | Except.ok _ =>
      { p with
          store := Store.resetSession p.store
          currentSessionId := none
          remote := markSession id SessionStatus.cancelled p.remote }
    | Except.error _ =>
      { p with
          store := Store.resetSession p.store
          currentSessionId := none }
  | none =>
    { p with store := Store.resetSession p.store, currentSessionId := none }

end TimerPage

/-- Concrete initial state of the first store version combined with a
one-task tasks store, used to instantiate theorems. -/
def initialV1State : StoreV1.AppState :=
  { currentSession := none
    isRunning := false
    isPaused := false
    timeRemaining := 25 * 60
    selectedTask := none
    sessions := []
    workDuration := 25 * 60
    breakDuration := 5 * 60
    tasks := [sampleTask] }

/-- Concrete TimerPage state right after mount: idle store, no remote
session id, one pending task, empty selection. -/
def samplePageState : TimerPage.PageState :=
  { store := Store.initialState
    currentSessionId := none
    remote := []
    tasks := [sampleTask]
    selectedTaskId := "" }

/-- Concrete TimerPage state with the sample task selected. -/
def selectedPageState : TimerPage.PageState :=
  { samplePageState with selectedTaskId := "1" }

/-- Concrete TimerPage state with a session running and a remote
session record held. -/
def runningPageState : TimerPage.PageState :=
  { store := Store.startSession 0 sampleTask Store.initialState
    currentSessionId := some ("s1")
    remote := [("s1", TimerPage.SessionStatus.running)]
    tasks := [sampleTask]
    selectedTaskId := "1" }

/-- Countdown behaviour after Start, as the code actually realizes it:
Start sets the countdown to the configured work duration D, the first
D ticks only run the countdown to 0 with the session still present and
the engine still running, the tick after that (the D plus first)
performs the automatic completion exactly once, and every further tick
is a no-op, so no second completion can fire. -/
def ticksBehavior (s : Store.PomodoroState) (task : Task) (now : Nat) : Prop :=
  (Store.startSession now task s).timeRemaining = s.workDuration ∧
  (Store.ticks s.workDuration (Store.startSession now task s)).timeRemaining = 0 ∧
  (Store.ticks s.workDuration (Store.startSession now task s)).isRunning = true ∧
  (Store.ticks s.workDuration (Store.startSession now task s)).currentSession =
    (Store.startSession now task s).currentSession ∧
  Store.ticks (s.workDuration + 1) (Store.startSession now task s) =
    Store.completeSession (Store.ticks s.workDuration (Store.startSession now task s)) ∧
  (Store.ticks (s.workDuration + 1) (Store.startSession now task s)).currentSession = none ∧
  (Store.ticks (s.workDuration + 1) (Store.startSession now task s)).isRunning = false ∧
  ∀ m, Store.ticks m (Store.ticks (s.workDuration + 1) (Store.startSession now task s)) =
    Store.ticks (s.workDuration + 1) (Store.startSession now task s)

/-- Claim C1, counterexample to the claim as stated: with work duration 2,
after exactly 2 ticks the countdown reads 0 but the session is still
present and the engine still running, so no automatic Complete
transition has fired within the first D ticks; it takes the third tick
to clear the session. -/
theorem claim1_counterexample :
    (Store.ticks 2 (Store.startSession 17 sampleTask
        { Store.initialState with workDuration := 2 })).timeRemaining = 0 ∧
    (Store.ticks 2 (Store.startSession 17 sampleTask
        { Store.initialState with workDuration := 2 })).isRunning = true ∧
    (Store.ticks 2 (Store.startSession 17 sampleTask
        { Store.initialState with workDuration := 2 })).currentSession.isSome = true ∧
    (Store.ticks 3 (Store.startSession 17 sampleTask
        { Store.initialState with workDuration := 2 })).currentSession = none := by
  decide

/-- Claim C1, amended: for every configured work duration D > 0, startSession
sets the countdown to D; D ticks while Running drive it to 0 without
completing, the automatic Complete fires exactly once on the following
(D plus first) tick, and no later tick changes anything. -/
theorem claim1_theorem (s : Store.PomodoroState) (task : Task) (now : Nat)
    (_hD : 0 < s.workDuration) : ticksBehavior s task now := by
  have hrun : (Store.startSession now task s).isRunning = true := rfl
  have htr : (Store.startSession now task s).timeRemaining = s.workDuration := rfl
  have hD : Store.ticks s.workDuration (Store.startSession now task s) =
      { Store.startSession now task s with timeRemaining := 0 } := by
    have h := Store.ticks_run_down s.workDuration
      (s := Store.startSession now task s) hrun (le_of_eq htr)
    rw [htr, Nat.sub_self] at h
    exact h
  have h0 : (Store.ticks s.workDuration (Store.startSession now task s)).isRunning
      = true := by rw [hD]; exact hrun
  have h1 : (Store.ticks s.workDuration (Store.startSession now task s)).timeRemaining
      = 0 := by rw [hD]
  have hC : Store.ticks (s.workDuration + 1) (Store.startSession now task s) =
      Store.completeSession
        (Store.ticks s.workDuration (Store.startSession now task s)) := by
    unfold Store.ticks at h0 h1 ⊢
    rw [Function.iterate_succ_apply']
    exact Store.tick_of_running_zero h0 h1
  have hCC : Store.completeSession
      (Store.ticks s.workDuration (Store.startSession now task s)) =
      { Store.startSession now task s with
          timeRemaining := s.workDuration
          currentSession := none
          selectedTask := none
          isRunning := false
          isPaused := false } := by
    rw [hD]
    rfl
  refine ⟨htr, ?_, ?_, ?_, hC, ?_, ?_, ?_⟩
  · rw [hD]
  · rw [hD]; exact hrun
  · rw [hD]
  · rw [hC, hCC]
  · rw [hC, hCC]
  · intro m
    rw [hC, hCC]
    exact Store.ticks_of_not_running m rfl

/-- Claim C1, witness: the amended behaviour instantiated at the initial
configuration (25 minutes) and the sample task. -/
theorem claim1_witness :
    0 < Store.initialState.workDuration ∧
    ticksBehavior Store.initialState sampleTask 0 :=
  ⟨by decide, claim1_theorem Store.initialState sampleTask 0 (by decide)⟩

/-- Claim C2, counterexample to the claim as stated: start the sample task
under the initial 25-minute configuration, deliver 5 ticks (countdown
at 1495 with the session running), then apply setDurations 30 5; the
in-flight countdown jumps to 1800, so applying new preference
durations mid-session does alter timeRemaining. -/
theorem claim2_counterexample :
    (Store.ticks 5 (Store.startSession 0 sampleTask Store.initialState)).isRunning
      = true ∧
    (Store.ticks 5 (Store.startSession 0 sampleTask Store.initialState)).currentSession.isSome
      = true ∧
    (Store.ticks 5 (Store.startSession 0 sampleTask Store.initialState)).timeRemaining
      = 1495 ∧
    (Store.setDurations 30 5
        (Store.ticks 5 (Store.startSession 0 sampleTask Store.initialState))).timeRemaining
      = 1800 := by
  decide

/-- Claim C2, amended: setDurations always overwrites timeRemaining with the
new work duration in seconds (besides storing both new durations),
whatever the engine is doing; the session, the flags and the selected
task are kept, so an in-flight countdown is preserved only in the
coincidence that it already equals the new work duration. -/
theorem claim2_theorem (w b : Nat) (s : Store.PomodoroState) :
    (Store.setDurations w b s).timeRemaining = w * 60 ∧
    (Store.setDurations w b s).workDuration = w * 60 ∧
    (Store.setDurations w b s).breakDuration = b * 60 ∧
    (Store.setDurations w b s).currentSession = s.currentSession ∧
    (Store.setDurations w b s).selectedTask = s.selectedTask ∧
    (Store.setDurations w b s).isRunning = s.isRunning ∧
    (Store.setDurations w b s).isPaused = s.isPaused :=
  ⟨rfl, rfl, rfl, rfl, rfl, rfl, rfl⟩

/-- Claim C3, counterexample to the claim as stated: the one-operation
sequence consisting of pauseSession, applied to the initial state, is
built from the public operations yet yields a state with isPaused true
and no current session, violating the stated invariant (pauseSession
has no guard). -/
theorem claim3_counterexample :
    ¬ Store.Inv (Store.runOps [Store.Op.pause] Store.initialState) := by
  decide

/-- Claim C3, amended: the stated invariants do hold for every state
reachable from the initial state when pauseSession is only invoked
while running and resumeSession only while paused, which is the
discipline the TimerPage UI enforces; without that discipline the
unguarded pause and resume break them. -/
theorem claim3_theorem {s : Store.PomodoroState} (h : Store.GReach s) :
    Store.Inv s := by
  induction h with
  | init => decide
  | startStep now task hs ih =>
    exact ⟨fun _ => rfl, fun hp => by simp [Store.startSession] at hp,
      fun hn => by simp [Store.startSession] at hn⟩
  | @pauseStep s hs hrun ih =>
    obtain ⟨i1, i2, i3⟩ := ih
    exact ⟨fun hr => by simp [Store.pauseSession] at hr,
      fun _ => ⟨i1 hrun, rfl⟩, fun hn => i3 hn⟩
  | @resumeStep s hs hpause ih =>
    obtain ⟨i1, i2, i3⟩ := ih
    exact ⟨fun _ => (i2 hpause).1,
      fun hp => by simp [Store.resumeSession] at hp, fun hn => i3 hn⟩
  | @completeStep s hs ih =>
    obtain ⟨i1, i2, i3⟩ := ih
    unfold Store.completeSession
    split
    · refine ⟨fun hr => ?_, fun hp => ?_, fun _ => rfl⟩
      · simp at hr
      · simp at hp
    · exact ⟨i1, i2, i3⟩
  | @resetStep s hs ih =>
    exact ⟨fun hr => by simp [Store.resetSession] at hr,
      fun hp => by simp [Store.resetSession] at hp, fun _ => rfl⟩
  | @tickStep s hs ih =>
    obtain ⟨i1, i2, i3⟩ := ih
    unfold Store.tick
    split
    · rename_i hcond
      obtain ⟨hrun, hpos⟩ := hcond
      refine ⟨fun _ => i1 hrun, fun hp => ?_, fun hn => ?_⟩
      · have h2 := (i2 hp).2
        rw [hrun] at h2
        exact absurd h2 (by decide)
      · have h1 := i1 hrun
        rw [hn] at h1
        exact absurd h1 (by decide)
    · split
      · unfold Store.completeSession
        split
        · refine ⟨fun hr => ?_, fun hp => ?_, fun _ => rfl⟩
          · simp at hr
          · simp at hp
        · exact ⟨i1, i2, i3⟩
      · exact ⟨i1, i2, i3⟩
  | @configStep w b s hs ih =>
    obtain ⟨i1, i2, i3⟩ := ih
    exact ⟨fun hr => i1 hr, fun hp => i2 hp, fun _ => rfl⟩

/-- Claim C3, witness: the amended invariant at a concrete guarded-reachable
state, a session started from the initial state and then paused while
running. -/
theorem claim3_witness :
    Store.Inv (Store.pauseSession (Store.startSession 0 sampleTask Store.initialState)) :=
  claim3_theorem
    (Store.GReach.pauseStep (Store.GReach.startStep 0 sampleTask Store.GReach.init) rfl)

/-- Claim C8: pauseSession applied to a state that is already Paused (paused
flag set, running flag clear, which is the only shape pauseSession ever
produces) is the identity, and resumeSession applied to a state that is
already Running is the identity; neither operation performs any remote
call in the source, so no duplicate remote call can arise. -/
theorem claim8_theorem (s : Store.PomodoroState) :
    (s.isPaused = true → s.isRunning = false → Store.pauseSession s = s) ∧
    (s.isRunning = true → s.isPaused = false → Store.resumeSession s = s) := by
  constructor
  · intro hp hr
    cases s
    unfold Store.pauseSession
    simp_all
  · intro hr hp
    cases s
    unfold Store.resumeSession
    simp_all

/-- Claim C8, witness: pausing an already-paused concrete state and resuming
an already-running concrete state both change nothing. -/
theorem claim8_witness :
    Store.pauseSession (Store.pauseSession (Store.startSession 0 sampleTask Store.initialState)) =
      Store.pauseSession (Store.startSession 0 sampleTask Store.initialState) ∧
    Store.resumeSession (Store.startSession 0 sampleTask Store.initialState) =
      Store.startSession 0 sampleTask Store.initialState :=
  ⟨(claim8_theorem (Store.pauseSession (Store.startSession 0 sampleTask Store.initialState))).1
      (by decide) (by decide),
   (claim8_theorem (Store.startSession 0 sampleTask Store.initialState)).2
      (by decide) (by decide)⟩

/-- Claim C10: invoking completeSession with no current session or no
selected task is a silent no-op in both store versions: the guard
fails, the state (including the tasks store of the first version) is
returned unchanged, and no error is raised (the functions are total
and have no error channel). -/
theorem claim10_theorem :
    (∀ s : Store.PomodoroState,
      s.currentSession = none ∨ s.selectedTask = none →
        Store.completeSession s = s) ∧
    (∀ (now : Nat) (s : StoreV1.AppState),
      s.currentSession = none ∨ s.selectedTask = none →
        StoreV1.completeSession now s = s) := by
  constructor
  · intro s h
    unfold Store.completeSession
    split
    · rename_i heq1 heq2
      rcases h with h | h <;> simp_all
    · rfl
  · intro now s h
    unfold StoreV1.completeSession
    split
    · rename_i heq1 heq2
      rcases h with h | h <;> simp_all
    · rfl

/-- Claim C10, witness: completeSession on the idle initial states of both
store versions changes nothing. -/
theorem claim10_witness :
    Store.completeSession Store.initialState = Store.initialState ∧
    StoreV1.completeSession 0 initialV1State = initialV1State :=
  ⟨claim10_theorem.1 Store.initialState (Or.inl rfl),
   claim10_theorem.2 0 initialV1State (Or.inl rfl)⟩

/-- Updating a task by id does not disturb which list entry the id
lookup finds: when the lookup finds the task before the update, it
finds exactly the merged task afterwards. -/
theorem find?_updateTask (id : String) (u : TasksStore.TaskUpdates) (now : Nat)
    (tasks : List Task) (task : Task)
    (h : tasks.find? (fun t => t.id = id) = some task) :
    (TasksStore.updateTask id u now tasks).find? (fun t => t.id = id) =
      some (TasksStore.applyUpdates u now task) := by
  induction tasks with
  | nil => simp at h
  | cons hd tl ih =>
    unfold TasksStore.updateTask
    simp only [List.map_cons]
    rw [List.find?_cons] at h
    by_cases hid : hd.id = id
    · rw [decide_eq_true hid] at h
      injection h with h
      subst h
      rw [if_pos hid, List.find?_cons,
        decide_eq_true (show (TasksStore.applyUpdates u now hd).id = id from hid)]
    · rw [decide_eq_false hid] at h
      rw [if_neg hid, List.find?_cons, decide_eq_false hid]
      exact ih h

/-- Round-trip behaviour of the first store version for a task bound
at Start: after Start then Complete the id lookup finds the bound task
with completedPomodoros incremented by exactly one and
estimatedPomodoros unchanged, while Start then Reset leaves the task
list entirely unchanged. -/
def roundTripBehavior (app : StoreV1.AppState) (task : Task) (now now2 : Nat) : Prop :=
  (∃ u : Task,
    (StoreV1.completeSession now2 (StoreV1.startSession now task app)).tasks.find?
        (fun t => t.id = task.id) = some u ∧
    u.completedPomodoros = task.completedPomodoros + 1 ∧
    u.estimatedPomodoros = task.estimatedPomodoros) ∧
  (StoreV1.resetSession (StoreV1.startSession now task app)).tasks = app.tasks

/-- Claim C4: in the first store version (the one whose completeSession
updates the tasks store), Start then Complete increments the bound
task completedPomodoros by exactly 1 and leaves estimatedPomodoros
unchanged, and Start then Reset leaves the task list unchanged,
provided the id lookup finds the bound task in the list. -/
theorem claim4_theorem (app : StoreV1.AppState) (task : Task) (now now2 : Nat)
    (hfind : app.tasks.find? (fun t => t.id = task.id) = some task) :
    roundTripBehavior app task now now2 := by
  constructor
  · refine ⟨TasksStore.applyUpdates
      { completedPomodoros := some (task.completedPomodoros + 1) } now2 task,
      ?_, rfl, rfl⟩
    have h : (StoreV1.completeSession now2 (StoreV1.startSession now task app)).tasks =
        TasksStore.updateTask task.id
          { completedPomodoros := some (task.completedPomodoros + 1) } now2 app.tasks := rfl
    rw [h]
    exact find?_updateTask task.id _ now2 app.tasks task hfind
  · rfl

/-- Claim C4, witness: the round trip at the concrete seeded state, whose
single task (2 completed of 4 estimated) is the one bound at Start. -/
theorem claim4_witness :
    initialV1State.tasks.find? (fun t => t.id = sampleTask.id) = some sampleTask ∧
    roundTripBehavior initialV1State sampleTask 0 1 :=
  ⟨by decide, claim4_theorem initialV1State sampleTask 0 1 (by decide)⟩

/-- Claim C5, counterexample to the claim as stated: with no task selected
(the empty initial selection), handleStart returns through the silent
guard: the page state is unchanged and no remote call is attempted,
but the outcome carries no error at all, no ValidationError is raised
and nothing is surfaced to the user. -/
theorem claim5_counterexample :
    TimerPage.handleStart (Except.ok ("s1")) 0 samplePageState =
      (samplePageState, false, TimerPage.StartOutcome.silentIgnore) ∧
    TimerPage.StartOutcome.surfacesError TimerPage.StartOutcome.silentIgnore = false := by
  decide

/-- Claim C5, amended: a Start attempt with no selected task (the id lookup
finds nothing) is silently ignored before any state mutation and no
remote call occurs; however no error of any kind (in particular no
ValidationError) is raised. -/
theorem claim5_theorem (createResult : Except String String) (now : Nat)
    (p : TimerPage.PageState)
    (h : p.tasks.find? (fun t => t.id = p.selectedTaskId) = none) :
    TimerPage.handleStart createResult now p =
      (p, false, TimerPage.StartOutcome.silentIgnore) ∧
    TimerPage.StartOutcome.surfacesError
      (TimerPage.handleStart createResult now p).2.2 = false := by
  have h1 : TimerPage.handleStart createResult now p =
      (p, false, TimerPage.StartOutcome.silentIgnore) := by
    unfold TimerPage.handleStart
    simp only [h]
  exact ⟨h1, by rw [h1]; rfl⟩

/-- Claim C5, witness: the amended behaviour at the concrete mounted page
state (empty selection), with a remote that would fail if called. -/
theorem claim5_witness :
    samplePageState.tasks.find?
      (fun t => t.id = samplePageState.selectedTaskId) = none ∧
    TimerPage.handleStart (Except.error ("network down")) 5 samplePageState =
      (samplePageState, false, TimerPage.StartOutcome.silentIgnore) :=
  ⟨by decide,
   (claim5_theorem (Except.error ("network down")) 5 samplePageState (by decide)).1⟩

/-- Claim C6: when the remote session create fails on a Start attempt that
passed the guard, handleStart leaves the whole page state untouched
(so an idle engine stays idle with no current session), surfaces the
create error to the caller, starts no local session and mutates no
task. -/
theorem claim6_theorem (msg : String) (now : Nat) (p : TimerPage.PageState)
    (task : Task)
    (hfind : p.tasks.find? (fun t => t.id = p.selectedTaskId) = some task)
    (hph : ¬ p.selectedTaskId = "no-tasks")
    (hidle : p.store.currentSession = none) :
    TimerPage.handleStart (Except.error msg) now p =
      (p, true, TimerPage.StartOutcome.createFailed msg) ∧
    (TimerPage.handleStart (Except.error msg) now p).1.store.currentSession = none ∧
    (TimerPage.handleStart (Except.error msg) now p).1.tasks = p.tasks := by
  have h1 : TimerPage.handleStart (Except.error msg) now p =
      (p, true, TimerPage.StartOutcome.createFailed msg) := by
    unfold TimerPage.handleStart
    simp only [hfind]
    rw [if_neg hph]
  exact ⟨h1, by rw [h1]; exact hidle, by rw [h1]⟩

/-- Claim C6, witness: a failing create on the concrete idle page state with
the sample task selected leaves everything unchanged and reports the
error. -/
theorem claim6_witness :
    selectedPageState.tasks.find?
      (fun t => t.id = selectedPageState.selectedTaskId) = some sampleTask ∧
    selectedPageState.store.currentSession = none ∧
    TimerPage.handleStart (Except.error ("network down")) 0 selectedPageState =
      (selectedPageState, true, TimerPage.StartOutcome.createFailed ("network down")) :=
  ⟨by decide, rfl,
   (claim6_theorem ("network down") 0 selectedPageState sampleTask
      (by decide) (by decide) rfl).1⟩

/-- Claim C7: handleReset finalizes the local state to Idle whatever the
remote cancel call does: no current session, nothing selected, flags
cleared, the countdown back at the configured work duration, the task
list untouched and the page session id dropped; on remote success with
a held session id the remote record is marked cancelled, and on remote
failure the remote store is untouched while the reset still happens
locally. -/
theorem claim7_theorem (r : Except String Unit) (p : TimerPage.PageState) :
    (TimerPage.handleReset r p).store.currentSession = none ∧
    (TimerPage.handleReset r p).store.selectedTask = none ∧
    (TimerPage.handleReset r p).store.isRunning = false ∧
    (TimerPage.handleReset r p).store.isPaused = false ∧
    (TimerPage.handleReset r p).store.timeRemaining = p.store.workDuration ∧
    (TimerPage.handleReset r p).tasks = p.tasks ∧
    (TimerPage.handleReset r p).currentSessionId = none ∧
    (∀ id, p.currentSessionId = some id → r = Except.ok () →
      (TimerPage.handleReset r p).remote =
        TimerPage.markSession id TimerPage.SessionStatus.cancelled p.remote) ∧
    (∀ e, r = Except.error e → (TimerPage.handleReset r p).remote = p.remote) := by
  unfold TimerPage.handleReset
  cases hc : p.currentSessionId with
  | none =>
    cases r with
    | ok u =>
      exact ⟨rfl, rfl, rfl, rfl, rfl, rfl, rfl,
        fun id hid => Option.noConfusion hid, fun e he => rfl⟩
    | error e0 =>
      exact ⟨rfl, rfl, rfl, rfl, rfl, rfl, rfl,
        fun id hid => Option.noConfusion hid, fun e he => rfl⟩
  | some id0 =>
    cases r with
    | ok u =>
      refine ⟨rfl, rfl, rfl, rfl, rfl, rfl, rfl, fun id hid hr => ?_,
        fun e he => Except.noConfusion he⟩
      injection hid with hid
      subst hid
      rfl
    | error e0 =>
      exact ⟨rfl, rfl, rfl, rfl, rfl, rfl, rfl,
        fun id hid hr => Except.noConfusion hr, fun e he => rfl⟩

/-- Claim C7, witness: resetting the concrete running page state with a
successful remote cancel lands locally in Idle with the countdown back
at the configured duration and the remote record marked cancelled. -/
theorem claim7_witness :
    (TimerPage.handleReset (Except.ok ()) runningPageState).store.currentSession = none ∧
    (TimerPage.handleReset (Except.ok ()) runningPageState).store.timeRemaining =
      runningPageState.store.workDuration ∧
    (TimerPage.handleReset (Except.ok ()) runningPageState).tasks =
      runningPageState.tasks ∧
    (TimerPage.handleReset (Except.ok ()) runningPageState).remote =
      TimerPage.markSession ("s1") TimerPage.SessionStatus.cancelled
        runningPageState.remote :=
  ⟨(claim7_theorem (Except.ok ()) runningPageState).1,
   (claim7_theorem (Except.ok ()) runningPageState).2.2.2.2.1,
   (claim7_theorem (Except.ok ()) runningPageState).2.2.2.2.2.1,
   (claim7_theorem (Except.ok ()) runningPageState).2.2.2.2.2.2.2.1 ("s1") rfl rfl⟩

/-- The empty search query matches every task: the empty string is a
substring of every lowercased title. -/
theorem matchesSearch_empty (t : Task) : matchesSearch ("") t = true := by
  have h0 : jsToLower ("") = "" := rfl
  have h1 : ("" : String).toList = [] := rfl
  unfold matchesSearch jsIncludes
  rw [h0]
  cases t.description <;> simp [h1, List.nil_infix]

/-- The priority statement filters by the priority predicate. -/
theorem priorityStage_eq (o : Option Priority) (l : List Task) :
    priorityStage o l = l.filter fun t => priorityPred o t := by
  cases o <;> simp [priorityStage, priorityPred]

/-- The tag statement filters by the tag predicate: an absent or empty
request keeps everything, a non-empty request keeps tasks with at
least one requested tag. -/
theorem tagsStage_eq (o : Option (List String)) (l : List Task) :
    tagsStage o l = l.filter fun t => tagsPred o t := by
  cases o with
  | none => simp [tagsStage, tagsPred]
  | some tags =>
    cases tags with
    | nil => simp [tagsStage, tagsPred]
    | cons a as => simp [tagsStage, tagsPred]

/-- The status statement filters by the status predicate. -/
theorem statusStage_eq (o : Option StatusFilter) (l : List Task) :
    statusStage o l = l.filter fun t => statusPred o t := by
  cases o with
  | none => simp [statusStage, statusPred]
  | some st => cases st <;> simp [statusStage, statusPred]

/-- The search statement filters by the search predicate: an absent or
empty query keeps everything (and indeed the empty query matches every
task), a non-empty query keeps the case-insensitive substring matches. -/
theorem searchStage_eq (o : Option String) (l : List Task) :
    searchStage o l = l.filter fun t => searchPred o t := by
  cases o with
  | none => simp [searchStage, searchPred]
  | some q =>
    by_cases hq : q = ""
    · subst hq
      simp [searchStage, searchPred, matchesSearch_empty]
    · simp [searchStage, searchPred, hq]

/-- Claim C9: both client-side filterings are pure functions of their inputs
and keep exactly the tasks satisfying the characteristic predicates:
the useTasks client filtering keeps the tasks matching the free-text
search (case-insensitive substring over title and description) that
also have one of the requested tags when tags are requested, and the
tasks store applyFilters additionally applies the priority and
completion-status predicates; order and multiplicity of the input
sequence are preserved. -/
theorem claim9_theorem (filters : TaskFilters) (tasks : List Task) :
    UseTasks.clientFilters filters tasks =
      tasks.filter (fun t => searchPred filters.search t && tagsPred filters.tags t) ∧
    TasksStore.applyFilters filters tasks =
      tasks.filter (fun t =>
        priorityPred filters.priority t && tagsPred filters.tags t &&
          statusPred filters.status t && searchPred filters.search t) := by
  constructor
  · unfold UseTasks.clientFilters
    rw [searchStage_eq, tagsStage_eq, List.filter_filter]
    exact List.filter_congr fun t _ => by
      cases tagsPred filters.tags t <;> cases searchPred filters.search t <;> rfl
  · unfold TasksStore.applyFilters
    rw [priorityStage_eq, tagsStage_eq, statusStage_eq, searchStage_eq,
      List.filter_filter, List.filter_filter, List.filter_filter]
    exact List.filter_congr fun t _ => by
      cases priorityPred filters.priority t <;> cases tagsPred filters.tags t <;>
        cases statusPred filters.status t <;> cases searchPred filters.search t <;> rfl

end DoItWithEase
